import Mathlib

/-!
# Verification of `music_ai.py`

A shallow embedding of the single-file Streamlit app `src/music_ai.py`
(an "AI BGM generator"): feature extraction from an uploaded WAV file,
prompt construction for a cloud language model, naive MIDI note
generation from the detected pitch sequence, synthesis with a fallback,
and the UI / filesystem effects, modelled as explicit traces.

Numeric values carried by numpy arrays are modelled as rationals (`ℚ`);
Python `int(...)` applied to a non-negative float is modelled as
`Int.floor` (truncation toward zero agrees with `floor` on non-negative
arguments).
-/

namespace MusicAi

/-! ## Feature extraction (lines 34–37)

`pitches` is the matrix returned by `librosa.piptrack`, modelled as the
list of its columns (one column per frame).  The comprehension
`[np.max(pitches[:, i]) for i in range(pitches.shape[1]) if np.max(pitches[:, i]) > 0]`
keeps each per-frame column maximum when it is strictly positive. -/

/-- `np.max` over one column of the `piptrack` matrix (`None` on an
empty column, where numpy would raise). -/
def colMax (c : List ℚ) : Option ℚ := c.max?

/-- Line 36: the per-frame maxima that are strictly positive. -/
def pitch_values (pitches : List (List ℚ)) : List ℚ :=
  (pitches.filterMap colMax).filter (fun v => 0 < v)

/-- Line 37: `np.mean(pitch_values) if pitch_values else 0`. -/
def avg_pitch (pv : List ℚ) : ℚ :=
  if pv = [] then 0 else pv.sum / pv.length

/-! ## Note generation (lines 64–80) -/

/-- `np.linspace a b n`: `n` evenly spaced samples from `a` to `b`
inclusive (`[a]` for `n = 1`, `[]` for `n = 0`). -/
def linspace (a b : ℚ) (n : ℕ) : List ℚ :=
  if n < 2 then (List.range n).map (fun _ => a)
  else (List.range n).map (fun i : ℕ => a + (b - a) * (i : ℚ) / ((n : ℚ) - 1))

/-- Line 67: `note_durations = np.linspace(0.5, 1.5, num=len(pitch_values))`. -/
def note_durations (pv : List ℚ) : List ℚ :=
  linspace (1/2) (3/2) pv.length

/-- One `pretty_midi.Note` (velocity, pitch, start, end). -/
structure MidiNote where
  velocity : ℕ
  pitch : ℤ
  start : ℚ
  stop : ℚ
  deriving Repr, DecidableEq

/-- A note's duration. -/
def MidiNote.duration (n : MidiNote) : ℚ := n.stop - n.start

/-- Line 73: `int(np.clip(pitch, 21, 108))`.  `np.clip` is
`min (max p 21) 108`; `int` truncates toward zero, which is `Int.floor`
on the non-negative clipped value. -/
def pitchToMidi (p : ℚ) : ℤ := Int.floor (min (max p 21) 108)

/-- The loop of lines 70–78: walk `zip pitch_values note_durations`
(which stops at the shorter list), appending one note per pair and
advancing `start_time` by the pair's duration. -/
def buildNotes : List ℚ → List ℚ → ℚ → List MidiNote
  | p :: ps, d :: ds, start_time =>
      { velocity := 100
        pitch := pitchToMidi p
        start := start_time
        stop := start_time + d } :: buildNotes ps ds (start_time + d)
  | _, _, _ => []

/-- The notes of the single generated instrument: the loop run over
`pitch_values` and `note_durations` from `start_time = 0.0`. -/
def instrumentNotes (pv : List ℚ) : List MidiNote :=
  buildNotes pv (note_durations pv) 0

/-! ## User inputs (lines 22, 45–46) -/

/-- Line 46: the options handed to `st.selectbox`. -/
def moodOptions : List String := ["Peaceful", "Energetic", "Sad", "Meditative", "Joyful"]

/-- `st.selectbox` returns the option the user picked, i.e. an element
of the option list, selected by its index. -/
def selectbox (options : List String) (i : Fin options.length) : String :=
  options.get i

/-- The three user inputs of the app: the uploaded WAV file (its
decoded samples), the free-text raga name (line 45), and the index of
the selected mood (line 46). -/
structure Inputs where
  uploadedWav : List ℚ
  raga_choice : String
  moodIndex : Fin moodOptions.length

/-- Line 46: the mood returned by the selectbox. -/
def mood_choice (inp : Inputs) : String :=
  selectbox moodOptions inp.moodIndex

/-! ## The prompt (lines 51–55) -/

/-- Python `"%.2f"`-style formatting of a non-negative value: round to
hundredths and print with exactly two digits after the point. -/
def fmt2 (q : ℚ) : String :=
  let n : ℕ := (round (q * 100)).toNat
  toString (n / 100) ++ "." ++ (if n % 100 < 10 then "0" else "") ++ toString (n % 100)

/-- The f-string of lines 51–55, with its newlines and indentation. -/
def prompt (avg_pitch tempo : ℚ) (raga_choice mood_choice : String) : String :=
  "\n            I am analyzing an Indian classical music piece with an average pitch of "
    ++ fmt2 avg_pitch ++ " Hz and a tempo of " ++ fmt2 tempo
    ++ " BPM.\n            The user wants to generate a new background music (BGM) based on the raga "
    ++ raga_choice ++ " with a " ++ mood_choice.toLower
    ++ " mood.\n            Suggest a melody structure, note sequences, and rhythmic pattern suitable for the mood and raga.\n            "

/-! ## The generation pipeline as an exception monad (lines 24–114)

Each library call that can raise is a stage yielding `Except`.  The
only `try/except` in the script is lines 87–90 around
`midi.fluidsynth`; everything else is executed bare, so in the
embedding every other stage's error propagates through `bind`. -/

/-- Lines 87–90: try `midi.fluidsynth`; on any exception use the
result of `midi.synthesize` (whose own failure is uncaught). -/
def fluidsynthWithFallback (fluid fallback : Except String (List ℚ)) :
    Except String (List ℚ) :=
  match fluid with
  | .ok audio => .ok audio
  | .error _ => fallback

/-- The generation run: load audio (line 31), extract features
(lines 34–37), call the cloud model (lines 56–58), write the MIDI file
(line 85), synthesize with the single fallback (lines 87–90), write
the WAV file (line 92).  Only the synthesis stage is guarded. -/
def runGeneration (loadAudio : Except String (List ℚ × ℕ))
    (extract : List ℚ × ℕ → Except String (ℚ × List ℚ))
    (cloudModel : ℚ × List ℚ → Except String String)
    (writeMidi : Except String Unit)
    (fluid fallback : Except String (List ℚ))
    (writeWav : List ℚ → Except String Unit) :
    Except String (String × List ℚ) := do
  let a ← loadAudio
  let f ← extract a
  let text ← cloudModel f
  writeMidi
  let audio ← fluidsynthWithFallback fluid fallback
  writeWav audio
  pure (text, audio)

/-! ## UI widgets of a successful generation (lines 60–111) -/

/-- A Streamlit widget invocation. -/
inductive Widget where
  | subheader (title : String)
  | markdown (text : String)
  | success (text : String)
  | downloadButton (label fileName mime : String)
  | audioPlayer (path : String)
  | pyplot (title : String)
  deriving Repr, DecidableEq

/-- The widgets emitted inside the generate-button branch after a
successful run, in program order (lines 61–62, 93, 96–102, 105–111).
`ai_suggestions` is the cloud model's text, `raga_choice` the raga the
user typed. -/
def generationWidgets (ai_suggestions raga_choice : String) : List Widget :=
  [ .subheader "🎶 AI-Generated Composition"
  , .markdown ("```\n" ++ ai_suggestions ++ "\n```")
  , .success "✅ New BGM Generated Successfully!"
  , .downloadButton "🎼 Download MIDI" "generated_bgm.mid" "audio/midi"
  , .downloadButton "🔊 Download Audio (WAV)" "generated_bgm.wav" "audio/wav"
  , .audioPlayer "generated_bgm.wav"
  , .subheader "📈 Pitch Contour"
  , .pyplot ("Pitch Contour for " ++ raga_choice ++ " BGM") ]

/-! ## Filesystem effects (lines 26, 85, 92, 114) -/

/-- A filesystem operation performed by the script. -/
inductive FsOp where
  | create (path : String)
  | remove (path : String)
  deriving Repr, DecidableEq

/-- Apply one operation to the set of files on disk (kept as a
duplicate-free list). -/
def applyFsOp (files : List String) : FsOp → List String
  | .create p => files.filter (fun q => q ≠ p) ++ [p]
  | .remove p => files.filter (fun q => q ≠ p)

/-- The files on disk after a sequence of operations, starting from
nothing. -/
def remainingFiles (ops : List FsOp) : List String :=
  ops.foldl applyFsOp []

/-- The filesystem trace of one full successful interaction:
create the temp WAV (line 26), write `generated_bgm.mid` (line 85) and
`generated_bgm.wav` (line 92), remove the temp WAV (line 114). -/
def scriptFsTrace (tempPath : String) : List FsOp :=
  [ .create tempPath
  , .create "generated_bgm.mid"
  , .create "generated_bgm.wav"
  , .remove tempPath ]

/-! ## Helper lemmas -/

theorem linspace_length (a b : ℚ) (n : ℕ) : (linspace a b n).length = n := by
  unfold linspace; split <;> simp

theorem mem_linspace {a b x : ℚ} {n : ℕ} (hab : a ≤ b) (hx : x ∈ linspace a b n) :
    a ≤ x ∧ x ≤ b := by
  unfold linspace at hx
  split at hx
  · simp only [List.mem_map] at hx
    obtain ⟨i, _, rfl⟩ := hx
    exact ⟨le_refl a, hab⟩
  · rename_i hn
    push_neg at hn
    simp only [List.mem_map, List.mem_range] at hx
    obtain ⟨i, hi, rfl⟩ := hx
    have h2 : (2 : ℚ) ≤ (n : ℚ) := by exact_mod_cast hn
    have hn1 : (0 : ℚ) < (n : ℚ) - 1 := by linarith
    have hi' : (i : ℚ) ≤ (n : ℚ) - 1 := by
      have : (i : ℚ) + 1 ≤ (n : ℚ) := by exact_mod_cast hi
      linarith
    have hba : (0:ℚ) ≤ b - a := by linarith
    constructor
    · have : 0 ≤ (b - a) * (i:ℚ) / ((n : ℚ) - 1) := by positivity
      linarith
    · have h1 : (b - a) * (i:ℚ) / ((n : ℚ) - 1) ≤ (b - a) := by
        rw [div_le_iff₀ hn1]
        nlinarith
      linarith

theorem linspace_pairwise_le {a b : ℚ} (hab : a ≤ b) (n : ℕ) :
    (linspace a b n).Pairwise (· ≤ ·) := by
  unfold linspace
  split
  · exact (List.pairwise_map).mpr ((List.pairwise_lt_range n).imp (fun _ => le_refl a))
  · rename_i hn
    push_neg at hn
    refine (List.pairwise_map).mpr ((List.pairwise_lt_range n).imp ?_)
    intro i j hij
    have h2 : (2 : ℚ) ≤ (n : ℚ) := by exact_mod_cast hn
    have hn1 : (0 : ℚ) < (n : ℚ) - 1 := by linarith
    have hij' : (i : ℚ) ≤ (j : ℚ) := by exact_mod_cast hij.le
    have hba : (0:ℚ) ≤ b - a := by linarith
    have : (b - a) * (i:ℚ) / ((n : ℚ) - 1) ≤ (b - a) * (j:ℚ) / ((n : ℚ) - 1) := by
      gcongr
    linarith

theorem buildNotes_map_duration : ∀ (pv ds : List ℚ) (s : ℚ), pv.length = ds.length →
    (buildNotes pv ds s).map MidiNote.duration = ds := by
  intro pv
  induction pv with
  | nil =>
      intro ds s h
      cases ds with
      | nil => rfl
      | cons d ds => simp at h
  | cons p ps ih =>
      intro ds s h
      cases ds with
      | nil => simp at h
      | cons d ds =>
          simp only [List.length_cons, Nat.add_right_cancel_iff] at h
          simp only [buildNotes, List.map_cons, List.cons.injEq, MidiNote.duration]
          exact ⟨by ring, ih ds (s + d) h⟩

theorem buildNotes_head?_start {pv ds : List ℚ} {s : ℚ} {n : MidiNote}
    (h : (buildNotes pv ds s).head? = some n) : n.start = s := by
  cases pv with
  | nil => simp [buildNotes] at h
  | cons p ps =>
      cases ds with
      | nil => simp [buildNotes] at h
      | cons d ds =>
          simp only [buildNotes, List.head?_cons, Option.some.injEq] at h
          rw [← h]

theorem buildNotes_chain' : ∀ (pv ds : List ℚ) (s : ℚ),
    List.Chain' (fun m n => n.start = m.stop) (buildNotes pv ds s) := by
  intro pv
  induction pv with
  | nil => intro ds s; cases ds <;> exact List.chain'_nil
  | cons p ps ih =>
      intro ds s
      cases ds with
      | nil => exact List.chain'_nil
      | cons d ds =>
          rw [buildNotes]
          refine List.chain'_cons'.mpr ⟨?_, ih ds (s + d)⟩
          intro y hy
          have hstart := buildNotes_head?_start hy
          simp [hstart]

theorem mem_buildNotes : ∀ {pv ds : List ℚ} {s : ℚ} {n : MidiNote},
    n ∈ buildNotes pv ds s →
      n.velocity = 100 ∧ (∃ p ∈ pv, n.pitch = pitchToMidi p) ∧ ∃ d ∈ ds, n.duration = d := by
  intro pv
  induction pv with
  | nil =>
      intro ds s n h
      cases ds <;> simp [buildNotes] at h
  | cons p ps ih =>
      intro ds s n h
      cases ds with
      | nil => simp [buildNotes] at h
      | cons d ds =>
          rw [buildNotes, List.mem_cons] at h
          rcases h with rfl | h
          · refine ⟨rfl, ⟨p, List.mem_cons_self p ps, rfl⟩, ⟨d, List.mem_cons_self d ds, ?_⟩⟩
            simp [MidiNote.duration]
          · obtain ⟨hv, ⟨q, hq, hpq⟩, ⟨e, he, hde⟩⟩ := ih h
            exact ⟨hv, ⟨q, List.mem_cons_of_mem p hq, hpq⟩,
              ⟨e, List.mem_cons_of_mem d he, hde⟩⟩

theorem pitchToMidi_bounds (p : ℚ) : 21 ≤ pitchToMidi p ∧ pitchToMidi p ≤ 108 := by
  unfold pitchToMidi
  constructor
  · apply Int.le_floor.mpr
    push_cast
    exact le_min (le_max_right p 21) (by norm_num)
  · calc Int.floor (min (max p 21) (108:ℚ)) ≤ Int.floor (108:ℚ) :=
        Int.floor_le_floor (min_le_right _ _)
      _ = 108 := by norm_num

theorem instrumentNotes_map_duration (pv : List ℚ) :
    (instrumentNotes pv).map MidiNote.duration = note_durations pv := by
  apply buildNotes_map_duration
  rw [note_durations, linspace_length]

theorem instrumentNotes_length (pv : List ℚ) :
    (instrumentNotes pv).length = pv.length := by
  have h := congrArg List.length (instrumentNotes_map_duration pv)
  simpa [note_durations, linspace_length] using h

/-! ## The claims -/

/-- C1 counterexample: on the piptrack matrix `[[100], [200]]` (two
frames) the two generated notes have durations 1/2 and 3/2, so not
every note of the generated instrument has the same duration. -/
theorem claim1_counterexample :
    ¬ ∀ m ∈ instrumentNotes (pitch_values [[100], [200]]),
        ∀ n ∈ instrumentNotes (pitch_values [[100], [200]]),
          m.duration = n.duration := by
  intro h
  have hpv : pitch_values [[100], [200]] = [100, 200] := by decide
  have hnotes : instrumentNotes (pitch_values [[100], [200]]) =
      [⟨100, 100, 0, 1/2⟩, ⟨100, 108, 1/2, 2⟩] := by
    rw [hpv]
    norm_num [instrumentNotes, note_durations, linspace, List.range_succ, buildNotes,
      pitchToMidi]
  rw [hnotes] at h
  have hcontra := h _ (List.mem_cons_self _ _) _
    (List.mem_cons_of_mem _ (List.mem_cons_self _ _))
  norm_num [MidiNote.duration] at hcontra

/-- C1 (amended): the generated clip rescales the detected pitch
sequence into notes whose durations are `np.linspace(0.5, 1.5, n)` —
linearly spaced between 0.5 s and 1.5 s rather than fixed; whenever
there are at least two pitch values, two durations differ. -/
theorem claim1_durations_linspaced (pv : List ℚ) :
    (instrumentNotes pv).map MidiNote.duration = note_durations pv ∧
    (2 ≤ pv.length → ∃ d₁ ∈ note_durations pv, ∃ d₂ ∈ note_durations pv, d₁ ≠ d₂) := by
  refine ⟨instrumentNotes_map_duration pv, fun h2 => ?_⟩
  have hn0 : 0 < pv.length := by omega
  have hnot : ¬ pv.length < 2 := by omega
  have h2q : (2 : ℚ) ≤ (pv.length : ℚ) := by exact_mod_cast h2
  have hne : ((pv.length : ℚ) - 1) ≠ 0 := by linarith
  refine ⟨1/2, ?_, 3/2, ?_, by norm_num⟩
  · rw [note_durations, linspace, if_neg hnot]
    refine List.mem_map.mpr ⟨0, List.mem_range.mpr hn0, ?_⟩
    simp
  · rw [note_durations, linspace, if_neg hnot]
    refine List.mem_map.mpr ⟨pv.length - 1, List.mem_range.mpr (by omega), ?_⟩
    have hcast : ((pv.length - 1 : ℕ) : ℚ) = (pv.length : ℚ) - 1 := by
      have h1 : (1:ℕ) ≤ pv.length := by omega
      push_cast [h1]
      ring
    rw [hcast]
    field_simp
    ring

theorem claim1_witness :
    ∃ d₁ ∈ note_durations [100, 200], ∃ d₂ ∈ note_durations [100, 200], d₁ ≠ d₂ :=
  (claim1_durations_linspaced [100, 200]).2 (by decide)

/-- C6: the mood the app works with is the selectbox's return value, an
element of the fixed five-element option set of line 46. -/
theorem claim6_mood_from_fixed_set (inp : Inputs) :
    mood_choice inp ∈ ["Peaceful", "Energetic", "Sad", "Meditative", "Joyful"] := by
  have h : mood_choice inp ∈ moodOptions := by
    show moodOptions.get inp.moodIndex ∈ moodOptions
    exact moodOptions.get_mem inp.moodIndex.1 inp.moodIndex.2
  simpa [moodOptions] using h

/-- C7: after a successful generation the widget trace contains the
MIDI download button, the WAV download button, the model's text
suggestion (markdown), and the pitch-contour plot. -/
theorem claim7_outputs_surfaced (ai_suggestions raga_choice : String) :
    Widget.downloadButton "🎼 Download MIDI" "generated_bgm.mid" "audio/midi"
        ∈ generationWidgets ai_suggestions raga_choice ∧
    Widget.downloadButton "🔊 Download Audio (WAV)" "generated_bgm.wav" "audio/wav"
        ∈ generationWidgets ai_suggestions raga_choice ∧
    Widget.markdown ("```\n" ++ ai_suggestions ++ "\n```")
        ∈ generationWidgets ai_suggestions raga_choice ∧
    Widget.pyplot ("Pitch Contour for " ++ raga_choice ++ " BGM")
        ∈ generationWidgets ai_suggestions raga_choice := by
  refine ⟨?_, ?_, ?_, ?_⟩ <;> simp [generationWidgets]

/-- C8: every note appended to the generated instrument has velocity
exactly 100 and a pitch clipped into the inclusive range [21, 108]. -/
theorem claim8_note_pitch_velocity (pv : List ℚ) (n : MidiNote)
    (hn : n ∈ instrumentNotes pv) :
    n.velocity = 100 ∧ 21 ≤ n.pitch ∧ n.pitch ≤ 108 := by
  obtain ⟨hv, ⟨p, _, hp⟩, _⟩ := mem_buildNotes hn
  exact ⟨hv, hp ▸ (pitchToMidi_bounds p).1, hp ▸ (pitchToMidi_bounds p).2⟩

theorem claim8_witness :
    ({ velocity := 100, pitch := 100, start := 0, stop := 1/2 } : MidiNote).velocity = 100 ∧
    (21 : ℤ) ≤ ({ velocity := 100, pitch := 100, start := 0, stop := 1/2 } : MidiNote).pitch ∧
    ({ velocity := 100, pitch := 100, start := 0, stop := 1/2 } : MidiNote).pitch ≤ 108 :=
  claim8_note_pitch_velocity [100] _ (by
    have h : instrumentNotes [100] = [⟨100, 100, 0, 1/2⟩] := by
      norm_num [instrumentNotes, note_durations, linspace, List.range_succ, buildNotes,
        pitchToMidi]
    rw [h]
    exact List.mem_cons_self _ _)

/-- C3: with the library calls modelled as functions, tempo and pitch
extraction give equal results on equal inputs, and `note_durations` is
a pure function of the length of `pitch_values`. -/
theorem claim3_determinism (beat_track : List ℚ → ℕ → ℚ)
    (piptrack : List ℚ → ℕ → List (List ℚ))
    (y₁ y₂ : List ℚ) (sr₁ sr₂ : ℕ) (hy : y₁ = y₂) (hsr : sr₁ = sr₂)
    (pv₁ pv₂ : List ℚ) (hlen : pv₁.length = pv₂.length) :
    beat_track y₁ sr₁ = beat_track y₂ sr₂ ∧
    pitch_values (piptrack y₁ sr₁) = pitch_values (piptrack y₂ sr₂) ∧
    note_durations pv₁ = note_durations pv₂ := by
  subst hy; subst hsr
  exact ⟨rfl, rfl, by rw [note_durations, note_durations, hlen]⟩

theorem claim3_witness :
    note_durations [100] = note_durations [200] :=
  (claim3_determinism (fun _ _ => 120) (fun _ _ => [[100]]) [1] [1] 22050 22050 rfl rfl
    [100] [200] rfl).2.2

/-- C4 counterexample: after a full interaction the output files are
still on disk — `generated_bgm.mid` remains — so not every file the
program creates is gone when the interaction ends. -/
theorem claim4_counterexample :
    "generated_bgm.mid" ∈ remainingFiles (scriptFsTrace "/tmp/tmp_upload.wav") := by decide

/-- C4 (amended): the temp WAV is deleted before the interaction ends,
but the output MIDI and WAV files persist on disk after the
interaction under their fixed names. -/
theorem claim4_temp_deleted_outputs_persist (tempPath : String)
    (h₁ : tempPath ≠ "generated_bgm.mid") (h₂ : tempPath ≠ "generated_bgm.wav") :
    tempPath ∉ remainingFiles (scriptFsTrace tempPath) ∧
    remainingFiles (scriptFsTrace tempPath) = ["generated_bgm.mid", "generated_bgm.wav"] := by
  have hmain : remainingFiles (scriptFsTrace tempPath) =
      ["generated_bgm.mid", "generated_bgm.wav"] := by
    simp [remainingFiles, scriptFsTrace, applyFsOp, List.filter, h₁, h₂,
      Ne.symm h₁, Ne.symm h₂]
  refine ⟨?_, hmain⟩
  rw [hmain]
  simp [h₁, h₂]

theorem claim4_witness :
    "/tmp/tmp_upload_1.wav" ∉ remainingFiles (scriptFsTrace "/tmp/tmp_upload_1.wav") ∧
    remainingFiles (scriptFsTrace "/tmp/tmp_upload_1.wav") =
      ["generated_bgm.mid", "generated_bgm.wav"] :=
  claim4_temp_deleted_outputs_persist "/tmp/tmp_upload_1.wav" (by decide) (by decide)

/-- C9: with at least two pitch values, the generated notes start at
0.0, are contiguous (each note starts where the previous one ends),
every note ends strictly after it starts with duration in [1/2, 3/2],
and the duration sequence is non-decreasing. -/
theorem claim9_contiguous_notes (pv : List ℚ) (h2 : 2 ≤ pv.length) :
    (∃ n rest, instrumentNotes pv = n :: rest ∧ n.start = 0) ∧
    List.Chain' (fun m n => n.start = m.stop) (instrumentNotes pv) ∧
    (∀ n ∈ instrumentNotes pv, n.start < n.stop ∧ 1/2 ≤ n.duration ∧ n.duration ≤ 3/2) ∧
    ((instrumentNotes pv).map MidiNote.duration).Pairwise (· ≤ ·) := by
  have hlen : (instrumentNotes pv).length = pv.length := instrumentNotes_length pv
  refine ⟨?_, buildNotes_chain' _ _ _, ?_, ?_⟩
  · cases hin : instrumentNotes pv with
    | nil => rw [hin] at hlen; simp at hlen; omega
    | cons n rest =>
        refine ⟨n, rest, rfl, ?_⟩
        have hh : (instrumentNotes pv).head? = some n := by rw [hin]; rfl
        exact buildNotes_head?_start hh
  · intro n hn
    obtain ⟨_, _, ⟨d, hd, hdur⟩⟩ := mem_buildNotes hn
    rw [note_durations] at hd
    have hb := mem_linspace (by norm_num : (1/2:ℚ) ≤ 3/2) hd
    refine ⟨?_, hdur ▸ hb.1, hdur ▸ hb.2⟩
    have hpos : 0 < n.duration := by rw [hdur]; linarith [hb.1]
    rw [MidiNote.duration] at hpos
    linarith
  · rw [instrumentNotes_map_duration, note_durations]
    exact linspace_pairwise_le (by norm_num) _

theorem claim9_witness :
    List.Chain' (fun m n => n.start = m.stop) (instrumentNotes [100, 200]) :=
  (claim9_contiguous_notes [100, 200] (by decide)).2.1

/-- C10: every detected pitch value is strictly positive, the average
pitch is 0 exactly when no pitch was detected, and with no pitch
values the generated instrument has no notes. -/
theorem claim10_pitch_positive (pitches : List (List ℚ)) :
    (∀ x ∈ pitch_values pitches, 0 < x) ∧
    (avg_pitch (pitch_values pitches) = 0 ↔ pitch_values pitches = []) ∧
    (pitch_values pitches = [] → instrumentNotes (pitch_values pitches) = []) := by
  have hpos : ∀ x ∈ pitch_values pitches, 0 < x := by
    intro x hx
    have hm := List.mem_filter.mp hx
    simpa using hm.2
  refine ⟨hpos, ⟨?_, ?_⟩, ?_⟩
  · intro h0
    by_contra hne
    rw [avg_pitch, if_neg hne] at h0
    have hlen : (0:ℚ) < (pitch_values pitches).length := by
      have := List.length_pos.mpr hne
      exact_mod_cast this
    have hsum : 0 < (pitch_values pitches).sum := List.sum_pos _ hpos hne
    have hq : (0:ℚ) < (pitch_values pitches).sum / (pitch_values pitches).length :=
      div_pos hsum hlen
    exact ne_of_gt hq h0
  · intro h; rw [avg_pitch, if_pos h]
  · intro h; rw [h]; rfl

theorem claim10_witness :
    (0:ℚ) < 2 ∧ (avg_pitch (pitch_values [[0], [2]]) = 0 ↔ pitch_values [[0], [2]] = []) :=
  ⟨(claim10_pitch_positive [[0], [2]]).1 2 (by decide),
    (claim10_pitch_positive [[0], [2]]).2.1⟩

theorem except_bind_ok {α β : Type} (a : α) (f : α → Except String β) :
    (Except.ok a : Except String α) >>= f = f a := rfl

theorem except_bind_error {α β : Type} (e : String) (f : α → Except String β) :
    (Except.error e : Except String α) >>= f = Except.error e := rfl

/-- C2: the only fallback is around the synthesis call — when
`midi.fluidsynth` fails, `midi.synthesize`'s result is used — while a
failure in any other stage (audio loading, feature extraction, the
cloud-model call, either file write, and the fallback synthesis
itself) propagates out of the run uncaught. -/
theorem claim2_single_fallback (a : List ℚ × ℕ) (f : ℚ × List ℚ) (text : String)
    (audio : List ℚ) (e e' : String)
    (extract : List ℚ × ℕ → Except String (ℚ × List ℚ))
    (cloudModel : ℚ × List ℚ → Except String String)
    (writeMidi : Except String Unit)
    (fluid fallback : Except String (List ℚ))
    (writeWav : List ℚ → Except String Unit) :
    (fluid = .error e' → fluidsynthWithFallback fluid fallback = fallback) ∧
    (fluid = .ok audio → fluidsynthWithFallback fluid fallback = .ok audio) ∧
    (runGeneration (.error e) extract cloudModel writeMidi fluid fallback writeWav
      = .error e) ∧
    (extract a = .error e →
      runGeneration (.ok a) extract cloudModel writeMidi fluid fallback writeWav
        = .error e) ∧
    (extract a = .ok f → cloudModel f = .error e →
      runGeneration (.ok a) extract cloudModel writeMidi fluid fallback writeWav
        = .error e) ∧
    (extract a = .ok f → cloudModel f = .ok text →
      runGeneration (.ok a) extract cloudModel (.error e) fluid fallback writeWav
        = .error e) ∧
    (extract a = .ok f → cloudModel f = .ok text → fluid = .error e' →
      fallback = .error e →
      runGeneration (.ok a) extract cloudModel (.ok ()) fluid fallback writeWav
        = .error e) ∧
    (extract a = .ok f → cloudModel f = .ok text →
      fluidsynthWithFallback fluid fallback = .ok audio → writeWav audio = .error e →
      runGeneration (.ok a) extract cloudModel (.ok ()) fluid fallback writeWav
        = .error e) ∧
    (extract a = .ok f → cloudModel f = .ok text → fluid = .error e' →
      fallback = .ok audio → writeWav audio = .ok () →
      runGeneration (.ok a) extract cloudModel (.ok ()) fluid fallback writeWav
        = .ok (text, audio)) ∧
    (extract a = .ok f → cloudModel f = .ok text → fluid = .ok audio →
      writeWav audio = .ok () →
      runGeneration (.ok a) extract cloudModel (.ok ()) fluid fallback writeWav
        = .ok (text, audio)) := by
  refine ⟨?_, ?_, ?_, ?_, ?_, ?_, ?_, ?_, ?_, ?_⟩
  · rintro rfl; rfl
  · rintro rfl; rfl
  · rfl
  · intro h1
    simp [runGeneration, except_bind_ok, except_bind_error, h1]
  · intro h1 h2
    simp [runGeneration, except_bind_ok, except_bind_error, h1, h2]
  · intro h1 h2
    simp [runGeneration, except_bind_ok, except_bind_error, h1, h2]
  · rintro h1 h2 rfl h4
    simp [runGeneration, fluidsynthWithFallback, except_bind_ok, except_bind_error,
      h1, h2, h4]
  · intro h1 h2 h3 h4
    simp [runGeneration, except_bind_ok, except_bind_error, h1, h2, h3, h4]
  · rintro h1 h2 rfl h4 h5
    simp [runGeneration, fluidsynthWithFallback, except_bind_ok, except_bind_error,
      h1, h2, h4, h5]
  · rintro h1 h2 rfl h4
    simp [runGeneration, fluidsynthWithFallback, except_bind_ok, except_bind_error,
      h1, h2, h4]

theorem claim2_witness :
    runGeneration (.ok ([], 0)) (fun _ => .ok (120, [100])) (fun _ => .ok "melody")
      (.ok ()) (.error "no fluidsynth") (.ok [0]) (fun _ => .ok ())
      = .ok ("melody", [0]) :=
  (claim2_single_fallback ([], 0) (120, [100]) "melody" [0] "wav write failed"
    "no fluidsynth" (fun _ => .ok (120, [100])) (fun _ => .ok "melody") (.ok ())
    (.error "no fluidsynth") (.ok [0])
    (fun _ => .ok ())).2.2.2.2.2.2.2.2.1 rfl rfl rfl rfl rfl

/-- C5: the prompt is a fixed template whose input-dependent parts are
exactly the average pitch and tempo (each rendered to two decimals by
`fmt2`) and the raga name and lower-cased mood, in that order; `fmt2`
renders a whole part and exactly two decimal digits of the value
rounded to hundredths. -/
theorem claim5_prompt_contents :
    (∃ s₁ s₂ s₃ s₄ s₅ : String, ∀ (avg tempo : ℚ) (raga mood : String),
        prompt avg tempo raga mood =
          s₁ ++ fmt2 avg ++ s₂ ++ fmt2 tempo ++ s₃ ++ raga ++ s₄ ++ mood.toLower ++ s₅) ∧
    (∀ q : ℚ, ∃ whole frac : ℕ, frac < 100 ∧
        100 * whole + frac = (round (q * 100)).toNat ∧
        fmt2 q = toString whole ++ "." ++ (if frac < 10 then "0" else "") ++ toString frac) := by
  constructor
  · refine ⟨"\n            I am analyzing an Indian classical music piece with an average pitch of ",
      " Hz and a tempo of ",
      " BPM.\n            The user wants to generate a new background music (BGM) based on the raga ",
      " with a ",
      " mood.\n            Suggest a melody structure, note sequences, and rhythmic pattern suitable for the mood and raga.\n            ",
      fun avg tempo raga mood => ?_⟩
    rw [prompt]
  · intro q
    exact ⟨(round (q * 100)).toNat / 100, (round (q * 100)).toNat % 100,
      Nat.mod_lt _ (by norm_num), Nat.div_add_mod _ _, rfl⟩

end MusicAi
